import Mathlib

/-!
Verification of the smux session core (`src/session.go`) against its
natural-language specification.  The session logic (receive pump dispatch,
close, stream-id allocation, send serializer accounting, key-exchange
handling, flow control) is embedded from the source.  Parts of the repository
that live outside `src/` (frame codec byte assignment, the crypto helpers)
are modelled from the spec at the contract level and are marked as such.
-/

namespace Smux

/-- Frame commands.  The dispatch switch in `recvLoop` distinguishes NOP,
SYN, PSH, RST, KXR, KXS and a default (unknown) case; `UNK` stands for any
byte that is none of the six assigned command values. -/
inductive Cmd where
  | NOP
  | SYN
  | PSH
  | RST
  | KXR
  | KXS
  | UNK
deriving DecidableEq, Repr

/-- Header size of a frame, 8 bytes (`headerSize` constant of the repo). -/
def headerSize : Nat := 8

/-- Modelled from the spec: the single protocol version byte constant
(`version`); the frame-codec file defining its value is not under `src/`.
The spec only requires a fixed constant, so its concrete value is free. -/
def version : Nat := 1

/-- Modelled from the spec: the stable command-byte assignment of the frame
codec (not under `src/`); the spec states any consistent distinct assignment
is conformant. -/
def byteToCmd (b : Nat) : Cmd :=
  if b = 0 then Cmd.SYN
  else if b = 1 then Cmd.RST
  else if b = 2 then Cmd.PSH
  else if b = 3 then Cmd.NOP
  else if b = 4 then Cmd.KXR
  else if b = 5 then Cmd.KXS
  else Cmd.UNK

/-- Modelled from the spec: inverse direction of the command-byte
assignment, used when the sender serializes a frame header. -/
def cmdByte : Cmd → Nat
  | Cmd.SYN => 0
  | Cmd.RST => 1
  | Cmd.PSH => 2
  | Cmd.NOP => 3
  | Cmd.KXR => 4
  | Cmd.KXS => 5
  | Cmd.UNK => 255

/-- A frame: version byte, command, stream id and payload bytes
(`Frame` of the repo; payload modelled as a list of bytes). -/
structure Frame where
  ver : Nat
  cmd : Cmd
  sid : Nat
  data : List Nat
deriving DecidableEq, Repr

/-- `newFrame` of the repo: a frame with the protocol version and an empty
payload (frame-constructor file not under `src/`; layout from the spec). -/
def newFrame (cmd : Cmd) (sid : Nat) : Frame :=
  { ver := version, cmd := cmd, sid := sid, data := [] }

/-- Modelled from the spec: `newKXSFrame` builds the key-exchange
acknowledgement whose payload echoes the sealed secret. -/
def newKXSFrame (data : List Nat) : Frame :=
  { ver := version, cmd := Cmd.KXS, sid := 0, data := data }

/-- Error strings of `src/session.go`. -/
def errBrokenPipe : String := "broken pipe"

def errEncryptionNotReady : String := "encryption not ready yet"

def errNoEncryptionKey : String := "no encryption key"

def errInvalidProtocol : String := "invalid protocol version"

def errReadFrame : String := "readFrame"

/-- State of the session's single stream cipher: the 32-byte key it was
initialized from and the current keystream position.  `src/session.go`
stores exactly one such instance per session (`cryptStream`). -/
structure CipherState where
  key : List Nat
  pos : Nat
deriving DecidableEq, Repr

/-- A keystream generator: given the 32-byte key, yields the keystream byte
at each position.  The spec describes the cipher as AES-OFB with a zero IV;
its only property used by the session core is that the keystream is a
deterministic function of the key, so the generator is a parameter. -/
def Keystream : Type := List Nat → Nat → Nat

/-- Modelled from the spec: `encrypt`/`decrypt` are an in-place XOR of the
buffer against the keystream, advancing the cipher position by the buffer
length. -/
def xorBytes (ks : Keystream) (c : CipherState) (data : List Nat) :
    List Nat × CipherState :=
  (data.mapIdx (fun i b => Nat.xor b (ks c.key (c.pos + i))),
   { c with pos := c.pos + data.length })

/-- Configuration fields of the repo's `Config` that the session core uses
for flow control and framing (the config file is not under `src/`; the spec
lists these fields). -/
structure Config where
  maxReceiveBuffer : Nat
  maxFrameSize : Nat
deriving DecidableEq, Repr

/-- The session state, embedding the fields of `Session` in
`src/session.go` that the verified properties depend on: role flag,
encryption flags, the ready-channel close count (a Go channel may be closed
at most once; the count records how often `close(chEncryptionReady)` has
been executed), the die flag, the stream-id counter, the token bucket, the
stream table (stream id paired with its buffered unread byte count) and the
single shared cipher instance. -/
structure SessionState where
  client : Bool
  encrypted : Bool
  encryptionReady : Bool
  readyCloses : Nat
  dieClosed : Bool
  nextStreamID : Nat
  bucket : Int
  streams : List (Nat × Nat)
  cryptStream : Option CipherState
deriving DecidableEq, Repr

/-- `newSession` of `src/session.go`: clients start the stream-id counter
at 1, servers at 2; the bucket starts at `MaxReceiveBuffer`; no cipher is
installed yet; the ready channel is open. -/
def newSession (config : Config) (encrypted client : Bool) : SessionState :=
  { client := client
    encrypted := encrypted
    encryptionReady := false
    readyCloses := 0
    dieClosed := false
    nextStreamID := if client then 1 else 2
    bucket := (config.maxReceiveBuffer : Int)
    streams := []
    cryptStream := none }

/-- `setEncryptionStream` of `src/session.go`: installs ONE cipher instance
(`cryptStream`) keyed from the 32-byte key with a zero IV; this single
instance is the one both `encrypt` and `decrypt` operate on. -/
def setEncryptionStream (st : SessionState) (key : List Nat) : SessionState :=
  { st with cryptStream := some { key := key, pos := 0 } }

/-- The `encrypt` helper as used by `writeFrame`: in-place XOR against the
session's single `cryptStream` (spec contract; the crypto file is not under
`src/`).  Fails with `errNoEncryptionKey` when no cipher is installed. -/
def encrypt (ks : Keystream) (st : SessionState) (data : List Nat) :
    Except String (List Nat × SessionState) :=
  match st.cryptStream with
  | none => Except.error errNoEncryptionKey
  | some c =>
      let r := xorBytes ks c data
      Except.ok (r.1, { st with cryptStream := some r.2 })

/-- The `decrypt` helper as used by `readFrame`: per the spec it is the
same in-place XOR operation, advancing the SAME single `cryptStream` field
of the session that `encrypt` advances. -/
def decrypt (ks : Keystream) (st : SessionState) (data : List Nat) :
    Except String (List Nat × SessionState) :=
  match st.cryptStream with
  | none => Except.error errNoEncryptionKey
  | some c =>
      let r := xorBytes ks c data
      Except.ok (r.1, { st with cryptStream := some r.2 })

/-- `Session.Close` of `src/session.go`.  The die channel is closed under
the die lock; a session already dead returns `errBrokenPipe`, otherwise the
die flag is set and the call returns the transport's close result
(`connCloseErr`, `none` meaning the transport close succeeded). -/
def sessionClose (st : SessionState) (connCloseErr : Option String) :
    SessionState × Option String :=
  if st.dieClosed then (st, some errBrokenPipe)
  else ({ st with dieClosed := true }, connCloseErr)

/-- `Session.IsClosed` of `src/session.go`. -/
def isClosed (st : SessionState) : Bool := st.dieClosed

/-- `atomic.AddUint32`: add and wrap modulo 2^32, returning the new value. -/
def addUint32 (x n : Nat) : Nat := (x + n) % 2 ^ 32

/-- Stream-id allocation in `OpenStream`:
`sid := atomic.AddUint32(&s.nextStreamID, 2)` — the id handed out is the
NEW value of the counter after adding 2. -/
def allocSid (st : SessionState) : Nat × SessionState :=
  let sid := addUint32 st.nextStreamID 2
  (sid, { st with nextStreamID := sid })

/-- `Session.OpenStream` of `src/session.go` restricted to its state
effect: fails with `errBrokenPipe` on a dead session, with
`errEncryptionNotReady` when `requireEncryption` timed out (the timing
outcome is the boolean argument `encReady`), otherwise allocates the next
stream id, sends SYN (no state effect here: SYN is never encrypted) and
inserts the stream with an empty buffer into the table. -/
def openStream (st : SessionState) (encReady : Bool) :
    Except String (Nat × SessionState) :=
  if isClosed st then Except.error errBrokenPipe
  else if encReady = false then Except.error errEncryptionNotReady
  else
    let r := allocSid st
    Except.ok (r.1, { r.2 with streams := (r.1, 0) :: r.2.streams })

/-- Iterated stream-id allocation: the session state after `n` successful
`OpenStream` id allocations. -/
def allocIter (st : SessionState) : Nat → SessionState
  | 0 => st
  | n + 1 => (allocSid (allocIter st n)).2

/-- Lookup in the stream table (`s.streams[sid]` on the Go map). -/
def lookupStream : List (Nat × Nat) → Nat → Option Nat
  | [], _ => none
  | p :: ps, sid => if p.1 = sid then some p.2 else lookupStream ps sid

/-- Replace the buffered-byte count of stream `sid` in the table. -/
def updateStream : List (Nat × Nat) → Nat → Nat → List (Nat × Nat)
  | [], _, _ => []
  | p :: ps, sid, n =>
      if p.1 = sid then (sid, n) :: ps else p :: updateStream ps sid n

/-- Remove stream `sid` from the table (`delete(s.streams, sid)`). -/
def removeStream : List (Nat × Nat) → Nat → List (Nat × Nat)
  | [], _ => []
  | p :: ps, sid => if p.1 = sid then ps else p :: removeStream ps sid

/-- Sum over all streams of buffered unread PSH bytes. -/
def bufferedSum (l : List (Nat × Nat)) : Nat :=
  l.foldr (fun p a => p.2 + a) 0

/-- The dispatch switch of `recvLoop` in `src/session.go` for one decoded
frame.  `kxrVerify` is the result of `verifyKeyExchange` on the frame
payload (that helper's file is not under `src/`): `some key` when the
sealed secret opens, `none` when it is rejected.
NOP: ignored.  SYN: a new stream with an empty buffer is inserted when the
id is unknown.  KXR: only a server that has not yet set the ready flag
reacts — compare-and-swap the flag, then either close the session (bad key
exchange) or install the cipher and echo KXS; a client ignores the frame.
KXS: the ready flag is compare-and-swapped, and in BOTH branches
`close(chEncryptionReady)` is executed (the close count increments).
RST: marks the stream (no bucket or buffer change).  PSH: when the stream
id is known, the bucket is decremented by the payload length and the bytes
are appended to that stream's buffer; otherwise nothing changes.
Unknown commands close the session. -/
def dispatch (st : SessionState) (f : Frame) (kxrVerify : Option (List Nat)) :
    SessionState :=
  match f.cmd with
  | Cmd.NOP => st
  | Cmd.SYN =>
      if (lookupStream st.streams f.sid).isSome then st
      else { st with streams := (f.sid, 0) :: st.streams }
  | Cmd.KXR =>
      if st.client = false ∧ st.encryptionReady = false then
        match kxrVerify with
        | none => (sessionClose { st with encryptionReady := true } none).1
        | some key => setEncryptionStream { st with encryptionReady := true } key
      else st
  | Cmd.KXS =>
      if st.encryptionReady = false then
        { st with encryptionReady := true, readyCloses := st.readyCloses + 1 }
      else
        { st with readyCloses := st.readyCloses + 1 }
  | Cmd.RST => st
  | Cmd.PSH =>
      match lookupStream st.streams f.sid with
      | some cnt =>
          { st with
            bucket := st.bucket - (f.data.length : Int)
            streams := updateStream st.streams f.sid (cnt + f.data.length) }
      | none => st
  | Cmd.UNK => (sessionClose st none).1

/-- Events acting on the session's flow-control state: the pump receiving
a frame (with the key-exchange verification outcome for KXR frames), a
stream read returning `n` consumed bytes to the bucket (`returnTokens`),
and a stream close recycling its residual tokens (`streamClosed`). -/
inductive PumpEV where
  | rcv (f : Frame) (kxrVerify : Option (List Nat))
  | readBytes (sid n : Nat)
  | closeStream (sid : Nat)
deriving Repr

/-- One step of the session's flow-control behaviour.  A `rcv` step embeds
the wait loop of `recvLoop`: the pump waits on the bucket condition while
`bucket ≤ 0` and the session is alive, and returns when the session is
closed — so no transport read (hence no dispatch) happens unless the
session is alive with `bucket > 0`; `none` means the event cannot fire.
`readBytes` embeds a stream `Read` consuming `n` buffered bytes and calling
`returnTokens n`; `closeStream` embeds `streamClosed` recycling the
residual tokens and deleting the table entry. -/
def pumpStep (st : SessionState) (e : PumpEV) : Option SessionState :=
  match e with
  | PumpEV.rcv f kxrVerify =>
      if st.dieClosed then none
      else if st.bucket ≤ 0 then none
      else some (dispatch st f kxrVerify)
  | PumpEV.readBytes sid n =>
      match lookupStream st.streams sid with
      | some cnt =>
          if n ≤ cnt then
            some { st with
                   bucket := st.bucket + (n : Int)
                   streams := updateStream st.streams sid (cnt - n) }
          else none
      | none => none
  | PumpEV.closeStream sid =>
      match lookupStream st.streams sid with
      | some cnt =>
          some { st with
                 bucket := st.bucket + (cnt : Int)
                 streams := removeStream st.streams sid }
      | none => none

/-- Run a sequence of flow-control events from a state. -/
def pumpRun (st : SessionState) : List PumpEV → Option SessionState
  | [] => some st
  | e :: es => (pumpStep st e).bind (fun st2 => pumpRun st2 es)

/-- Little-endian 16-bit decode (bytes 2-3 of the header). -/
def le16 (b0 b1 : Nat) : Nat := b0 + 256 * b1

/-- Little-endian 32-bit decode (bytes 4-7 of the header). -/
def le32 (b0 b1 b2 b3 : Nat) : Nat :=
  b0 + 256 * b1 + 65536 * b2 + 16777216 * b3

/-- `readFrame` of `src/session.go` over the incoming transport bytes:
read 8 header bytes (short read fails), reject when the version byte
differs from the protocol constant, decode command, length and stream id,
read exactly `length` payload bytes (short read fails), and decrypt the
payload in place when the session is encrypted and the command is PSH.
Header field offsets are those the spec gives for the codec. -/
def readFrame (ks : Keystream) (st : SessionState) (bytes : List Nat) :
    Except String (Frame × SessionState) :=
  match bytes with
  | b0 :: b1 :: b2 :: b3 :: b4 :: b5 :: b6 :: b7 :: rest =>
      if b0 ≠ version then Except.error errInvalidProtocol
      else
        let cmd := byteToCmd b1
        let length := le16 b2 b3
        let sid := le32 b4 b5 b6 b7
        if length = 0 then
          Except.ok ({ ver := b0, cmd := cmd, sid := sid, data := [] }, st)
        else if rest.length < length then Except.error errReadFrame
        else
          let data := rest.take length
          if st.encrypted = true ∧ cmd = Cmd.PSH then
            match decrypt ks st data with
            | Except.error e => Except.error e
            | Except.ok (pt, st2) =>
                Except.ok ({ ver := b0, cmd := cmd, sid := sid, data := pt }, st2)
          else Except.ok ({ ver := b0, cmd := cmd, sid := sid, data := data }, st)
  | _ => Except.error errReadFrame

/-- One iteration of `recvLoop` fed with the next transport bytes: wait
until the bucket is positive or the session dies; on a frame-decode error
the session is closed (`s.Close()`), otherwise the frame is dispatched. -/
def recvOnce (ks : Keystream) (st : SessionState) (bytes : List Nat)
    (kxrVerify : Option (List Nat)) : SessionState :=
  if st.dieClosed then st
  else if st.bucket ≤ 0 then st
  else
    match readFrame ks st bytes with
    | Except.error _ => (sessionClose st none).1
    | Except.ok (f, st2) => dispatch st2 f kxrVerify

/-- Result reported back to a `writeFrame` caller (`writeResult`). -/
structure WriteResult where
  n : Int
  err : Option String
deriving DecidableEq, Repr

/-- The header+payload buffer built by `sendLoop` for a request:
version byte, command byte, little-endian u16 length, little-endian u32
stream id, then the payload. -/
def encodeFrame (f : Frame) : List Nat :=
  [f.ver, cmdByte f.cmd, f.data.length % 256, f.data.length / 256 % 256,
   f.sid % 256, f.sid / 256 % 256, f.sid / 65536 % 256, f.sid / 16777216 % 256]
  ++ f.data

/-- The accounting of one `sendLoop` request in `src/session.go`: the
transport write accepted `accepted` bytes of the encoded buffer (with
`err` its error, if any); the loop computes `n -= headerSize` and clamps
`if n < 0 { n = 0 }` before reporting the result. -/
def sendLoopStep (f : Frame) (accepted : Nat) (err : Option String) :
    WriteResult :=
  let n : Int := (accepted : Int) - (headerSize : Int)
  let n := if n < 0 then 0 else n
  { n := n, err := err }

/-- `writeFrame` of `src/session.go` in terms of its caller-visible data
effects.  When the session is encrypted and the frame is PSH, the payload
is encrypted IN PLACE (`encrypt(s, req.frame.data, req.frame.data)`)
before the request is enqueued, so the enqueued payload and the caller's
buffer are the same bytes.  A dead session yields `errBrokenPipe`.  On
success the result is the new session state, the payload the sender task
will see, and the contents of the caller's buffer after the call. -/
def writeFrame (ks : Keystream) (st : SessionState) (f : Frame) :
    Except String (SessionState × List Nat × List Nat) :=
  if st.encrypted = true ∧ f.cmd = Cmd.PSH then
    match encrypt ks st f.data with
    | Except.error e => Except.error e
    | Except.ok (ct, st2) =>
        if st2.dieClosed then Except.error errBrokenPipe
        else Except.ok (st2, ct, ct)
  else
    if st.dieClosed then Except.error errBrokenPipe
    else Except.ok (st, f.data, f.data)

/-- The stream id handed out by the `n`-th (0-indexed) `OpenStream`
allocation on a session: `n` prior allocations advance the counter, and the
next `atomic.AddUint32(&s.nextStreamID, 2)` returns the new value. -/
def sidAlloc (st : SessionState) (n : Nat) : Nat :=
  (allocSid (allocIter st n)).1

/-- Flow-control invariant: buffered unread bytes plus the remaining bucket
always equal the configured `MaxReceiveBuffer`. -/
def flowInv (cfg : Config) (st : SessionState) : Prop :=
  (bufferedSum st.streams : Int) + st.bucket = (cfg.maxReceiveBuffer : Int)

/-- Concrete configuration used to exercise the flow-control bound: an
8-byte receive buffer. -/
def flowDemoCfg : Config := { maxReceiveBuffer := 8, maxFrameSize := 4096 }

/-- Concrete event run: a SYN for stream 5 followed by a 3-byte PSH. -/
def flowDemoEvs : List PumpEV :=
  [PumpEV.rcv { ver := version, cmd := Cmd.SYN, sid := 5, data := [] } none,
   PumpEV.rcv { ver := version, cmd := Cmd.PSH, sid := 5, data := [9, 9, 9] } none]

/-- The session state reached by `flowDemoEvs` from a fresh client session
over `flowDemoCfg`. -/
def flowDemoState : SessionState :=
  { client := true, encrypted := false, encryptionReady := false,
    readyCloses := 0, dieClosed := false, nextStreamID := 1,
    bucket := 5, streams := [(5, 3)], cryptStream := none }

/-- A further 2-byte PSH frame for stream 5. -/
def flowDemoFrame : Frame :=
  { ver := version, cmd := Cmd.PSH, sid := 5, data := [4, 4] }

theorem bufferedSum_nil : bufferedSum [] = 0 := rfl

theorem bufferedSum_cons (p : Nat × Nat) (l : List (Nat × Nat)) :
    bufferedSum (p :: l) = p.2 + bufferedSum l := rfl

theorem bufferedSum_updateStream (l : List (Nat × Nat)) (sid cnt n : Nat)
    (h : lookupStream l sid = some cnt) :
    bufferedSum (updateStream l sid n) + cnt = bufferedSum l + n := by
  induction l with
  | nil => simp [lookupStream] at h
  | cons p ps ih =>
      by_cases hp : p.1 = sid
      · simp [lookupStream, hp] at h
        simp [updateStream, hp, bufferedSum_cons]
        omega
      · simp [lookupStream, hp] at h
        have := ih h
        simp [updateStream, hp, bufferedSum_cons]
        omega

theorem bufferedSum_removeStream (l : List (Nat × Nat)) (sid cnt : Nat)
    (h : lookupStream l sid = some cnt) :
    bufferedSum (removeStream l sid) + cnt = bufferedSum l := by
  induction l with
  | nil => simp [lookupStream] at h
  | cons p ps ih =>
      by_cases hp : p.1 = sid
      · simp [lookupStream, hp] at h
        simp [removeStream, hp, bufferedSum_cons]
        omega
      · simp [lookupStream, hp] at h
        have := ih h
        simp [removeStream, hp, bufferedSum_cons]
        omega

theorem sessionClose_fst_bucket (st : SessionState) (e : Option String) :
    ((sessionClose st e).1).bucket = st.bucket := by
  unfold sessionClose
  split <;> rfl

theorem sessionClose_fst_streams (st : SessionState) (e : Option String) :
    ((sessionClose st e).1).streams = st.streams := by
  unfold sessionClose
  split <;> rfl

theorem sessionClose_fst_dieClosed (st : SessionState) (e : Option String) :
    ((sessionClose st e).1).dieClosed = true := by
  unfold sessionClose
  split <;> simp_all

theorem flowInv_dispatch (cfg : Config) (st : SessionState) (f : Frame)
    (kxrVerify : Option (List Nat)) (h : flowInv cfg st) :
    flowInv cfg (dispatch st f kxrVerify) := by
  rcases f with ⟨ver, cmd, sid, data⟩
  unfold flowInv at h ⊢
  cases cmd with
  | NOP => exact h
  | SYN =>
      cases hl : lookupStream st.streams sid with
      | some c => simpa [dispatch, hl] using h
      | none =>
          simp only [dispatch, hl, Option.isSome_none, Bool.false_eq_true,
            if_false, bufferedSum_cons]
          push_cast
          omega
  | KXR =>
      by_cases hcl : st.client = false
      · by_cases hready : st.encryptionReady = false
        · cases kxrVerify with
          | none =>
              simpa [dispatch, hcl, hready, sessionClose_fst_bucket,
                sessionClose_fst_streams] using h
          | some key =>
              simpa [dispatch, hcl, hready, setEncryptionStream] using h
        · simpa [dispatch, hcl, hready] using h
      · simpa [dispatch, hcl] using h
  | KXS =>
      by_cases hready : st.encryptionReady = false
      · simpa [dispatch, hready] using h
      · simpa [dispatch, hready] using h
  | RST => exact h
  | PSH =>
      cases hcnt : lookupStream st.streams sid with
      | none => simpa [dispatch, hcnt] using h
      | some cnt =>
          have hsum := bufferedSum_updateStream st.streams sid cnt
            (cnt + data.length) hcnt
          simp only [dispatch, hcnt]
          omega
  | UNK =>
      simpa [dispatch, sessionClose_fst_bucket, sessionClose_fst_streams]
        using h

theorem dispatch_bucket_ge (st : SessionState) (f : Frame)
    (kxrVerify : Option (List Nat)) :
    st.bucket - (f.data.length : Int) ≤ (dispatch st f kxrVerify).bucket := by
  rcases f with ⟨ver, cmd, sid, data⟩
  have hlen : (0 : Int) ≤ (data.length : Int) := Int.natCast_nonneg _
  cases cmd with
  | NOP => simp only [dispatch]; omega
  | SYN =>
      cases hl : lookupStream st.streams sid with
      | some c =>
          simp only [dispatch, hl, Option.isSome_some, if_true]
          omega
      | none =>
          simp only [dispatch, hl, Option.isSome_none, Bool.false_eq_true,
            if_false]
          omega
  | KXR =>
      by_cases hcl : st.client = false
      · by_cases hready : st.encryptionReady = false
        · cases kxrVerify with
          | none =>
              simp only [dispatch, hcl, hready, and_self, if_true,
                sessionClose_fst_bucket]
              omega
          | some key =>
              simp only [dispatch, hcl, hready, and_self, if_true,
                setEncryptionStream]
              omega
        · simp only [dispatch, hcl, hready]
          rw [if_neg (by simp [hready])]
          omega
      · simp only [dispatch]
        rw [if_neg (by simp [hcl])]
        omega
  | KXS =>
      by_cases hready : st.encryptionReady = false
      · simp only [dispatch, hready, if_true]
        try dsimp only
        omega
      · simp only [dispatch]
        rw [if_neg hready]
        dsimp only
        omega
  | RST => simp only [dispatch]; omega
  | PSH =>
      cases hcnt : lookupStream st.streams sid with
      | none =>
          simp only [dispatch, hcnt]
          omega
      | some cnt =>
          simp only [dispatch, hcnt]
          omega
  | UNK =>
      simp only [dispatch, sessionClose_fst_bucket]
      omega

theorem flowInv_pumpStep (cfg : Config) (st st2 : SessionState) (e : PumpEV)
    (h : pumpStep st e = some st2) (hinv : flowInv cfg st) : flowInv cfg st2 := by
  cases e with
  | rcv f kxrVerify =>
      unfold pumpStep at h
      by_cases hd : st.dieClosed
      · simp [hd] at h
      · by_cases hb : st.bucket ≤ 0
        · simp [hd, hb] at h
        · simp [hd, hb] at h
          exact h ▸ flowInv_dispatch cfg st f kxrVerify hinv
  | readBytes sid n =>
      unfold pumpStep at h
      cases hcnt : lookupStream st.streams sid with
      | none => simp [hcnt] at h
      | some cnt =>
          simp [hcnt] at h
          rcases h with ⟨hle, h⟩
          have hsum := bufferedSum_updateStream st.streams sid cnt (cnt - n) hcnt
          unfold flowInv at hinv ⊢
          subst h
          simp only []
          omega
  | closeStream sid =>
      unfold pumpStep at h
      cases hcnt : lookupStream st.streams sid with
      | none => simp [hcnt] at h
      | some cnt =>
          simp [hcnt] at h
          have hsum := bufferedSum_removeStream st.streams sid cnt hcnt
          unfold flowInv at hinv ⊢
          subst h
          simp only []
          omega

theorem flowInv_pumpRun (cfg : Config) (st st2 : SessionState)
    (evs : List PumpEV) (h : pumpRun st evs = some st2) (hinv : flowInv cfg st) :
    flowInv cfg st2 := by
  induction evs generalizing st with
  | nil =>
      simp [pumpRun] at h
      exact h ▸ hinv
  | cons e es ih =>
      simp [pumpRun] at h
      cases hstep : pumpStep st e with
      | none => simp [hstep] at h
      | some stm =>
          simp [hstep] at h
          exact ih stm h (flowInv_pumpStep cfg st stm e hstep hinv)

theorem flowInv_newSession (cfg : Config) (e c : Bool) :
    flowInv cfg (newSession cfg e c) := by
  simp [flowInv, newSession, bufferedSum_nil]

theorem allocIter_nextStreamID (st : SessionState) (n : Nat) :
    (allocIter st (n + 1)).nextStreamID =
      (st.nextStreamID + 2 * (n + 1)) % 2 ^ 32 := by
  induction n with
  | zero => simp [allocIter, allocSid, addUint32]
  | succ k ih =>
      have hstep : allocIter st (k + 1 + 1) = (allocSid (allocIter st (k + 1))).2 :=
        rfl
      rw [hstep]
      show addUint32 (allocIter st (k + 1)).nextStreamID 2 = _
      rw [ih]
      unfold addUint32
      rw [Nat.mod_add_mod]
      congr 1

theorem sidAlloc_eq (st : SessionState) (n : Nat) :
    sidAlloc st n = (st.nextStreamID + 2 * (n + 1)) % 2 ^ 32 := by
  have h : sidAlloc st n = (allocIter st (n + 1)).nextStreamID := rfl
  rw [h, allocIter_nextStreamID]

/-- C5 (amended): every stream id allocated by `OpenStream` on a client
session is odd and on a server session even; the FIRST allocated ids are 3
(client) and 4 (server) — not 1 and 2 — because `atomic.AddUint32` returns
the already-incremented counter; and among the first 2^31 allocations no
two ids coincide (the 32-bit counter wraps after that). -/
theorem openStream_sid_parity_first_unique (cfg : Config) (e : Bool)
    (n m : Nat) (hn : n < 2 ^ 31) (hm : m < 2 ^ 31) (hnm : n ≠ m) :
    sidAlloc (newSession cfg e true) n % 2 = 1 ∧
    sidAlloc (newSession cfg e false) n % 2 = 0 ∧
    sidAlloc (newSession cfg e true) 0 = 3 ∧
    sidAlloc (newSession cfg e false) 0 = 4 ∧
    sidAlloc (newSession cfg e true) n ≠ sidAlloc (newSession cfg e true) m ∧
    sidAlloc (newSession cfg e false) n ≠ sidAlloc (newSession cfg e false) m ∧
    (openStream (newSession cfg e true) true).map Prod.fst = Except.ok 3 ∧
    (openStream (newSession cfg e false) true).map Prod.fst = Except.ok 4 := by
  have h1 : (newSession cfg e true).nextStreamID = 1 := rfl
  have h2 : (newSession cfg e false).nextStreamID = 2 := rfl
  have hpow32 : (2 : ℕ) ^ 32 = 4294967296 := by norm_num
  have hpow31 : (2 : ℕ) ^ 31 = 2147483648 := by norm_num
  rw [hpow31] at hn hm
  refine ⟨?_, ?_, ?_, ?_, ?_, ?_, rfl, rfl⟩
  · rw [sidAlloc_eq, h1, hpow32]; omega
  · rw [sidAlloc_eq, h2, hpow32]; omega
  · rw [sidAlloc_eq, h1, hpow32]
  · rw [sidAlloc_eq, h2, hpow32]
  · rw [sidAlloc_eq, sidAlloc_eq, h1, hpow32]; omega
  · rw [sidAlloc_eq, sidAlloc_eq, h2, hpow32]; omega

/-- C5 witness: the amended statement at concrete inputs n = 0, m = 1. -/
theorem openStream_sid_parity_first_unique_witness :
    ((0 : Nat) < 2 ^ 31 ∧ (1 : Nat) < 2 ^ 31 ∧ (0 : Nat) ≠ 1) ∧
    (sidAlloc (newSession { maxReceiveBuffer := 1024, maxFrameSize := 4096 } false true) 0 % 2 = 1 ∧
     sidAlloc (newSession { maxReceiveBuffer := 1024, maxFrameSize := 4096 } false false) 0 % 2 = 0 ∧
     sidAlloc (newSession { maxReceiveBuffer := 1024, maxFrameSize := 4096 } false true) 0 = 3 ∧
     sidAlloc (newSession { maxReceiveBuffer := 1024, maxFrameSize := 4096 } false false) 0 = 4 ∧
     sidAlloc (newSession { maxReceiveBuffer := 1024, maxFrameSize := 4096 } false true) 0 ≠
       sidAlloc (newSession { maxReceiveBuffer := 1024, maxFrameSize := 4096 } false true) 1 ∧
     sidAlloc (newSession { maxReceiveBuffer := 1024, maxFrameSize := 4096 } false false) 0 ≠
       sidAlloc (newSession { maxReceiveBuffer := 1024, maxFrameSize := 4096 } false false) 1 ∧
     (openStream (newSession { maxReceiveBuffer := 1024, maxFrameSize := 4096 } false true) true).map Prod.fst =
       Except.ok 3 ∧
     (openStream (newSession { maxReceiveBuffer := 1024, maxFrameSize := 4096 } false false) true).map Prod.fst =
       Except.ok 4) :=
  ⟨⟨by norm_num, by norm_num, by decide⟩,
   openStream_sid_parity_first_unique _ false 0 1 (by norm_num) (by norm_num)
     (by decide)⟩

/-- C5 counterexample: the claim as stated is false — the first stream id
allocated by `OpenStream` on a fresh client session is 3, not 1. -/
theorem openStream_first_sid_is_three :
    (openStream (newSession { maxReceiveBuffer := 1024, maxFrameSize := 4096 } false true)
        true).map Prod.fst = Except.ok 3 ∧ (3 : Nat) ≠ 1 :=
  ⟨rfl, by decide⟩

/-- C4: the first call to `Session.Close` on a live session returns the
transport's close result — `Ok` when the transport close succeeds — and
marks the session dead; every call on the now-dead session returns
BrokenPipe and leaves the state unchanged (so all subsequent calls return
BrokenPipe). -/
theorem sessionClose_first_ok_second_broken (st : SessionState)
    (e : Option String) (h : st.dieClosed = false) :
    (sessionClose st none).2 = none ∧
    (sessionClose (sessionClose st none).1 e).2 = some errBrokenPipe ∧
    (sessionClose (sessionClose st none).1 e).1 = (sessionClose st none).1 := by
  have h1 : sessionClose st none = ({ st with dieClosed := true }, none) := by
    unfold sessionClose
    rw [if_neg (by simp [h])]
  rw [h1]
  refine ⟨rfl, ?_, ?_⟩ <;> unfold sessionClose <;> simp

/-- C4 witness: the idempotent-close behaviour at a concrete fresh session. -/
theorem sessionClose_first_ok_second_broken_witness :
    (newSession { maxReceiveBuffer := 1024, maxFrameSize := 4096 } false true).dieClosed = false ∧
    ((sessionClose (newSession { maxReceiveBuffer := 1024, maxFrameSize := 4096 } false true) none).2 = none ∧
     (sessionClose (sessionClose (newSession { maxReceiveBuffer := 1024, maxFrameSize := 4096 } false true) none).1 none).2 =
       some errBrokenPipe ∧
     (sessionClose (sessionClose (newSession { maxReceiveBuffer := 1024, maxFrameSize := 4096 } false true) none).1 none).1 =
       (sessionClose (newSession { maxReceiveBuffer := 1024, maxFrameSize := 4096 } false true) none).1) :=
  ⟨rfl, sessionClose_first_ok_second_broken _ none rfl⟩

/-- C8: for every drained write request, the count reported to the caller is
the number of bytes the transport write accepted minus the 8-byte header,
floored at 0, and the transport error is passed through unchanged. -/
theorem sendLoop_report_floor (f : Frame) (accepted : Nat)
    (err : Option String) :
    (sendLoopStep f accepted err).n =
      max ((accepted : Int) - (headerSize : Int)) 0 ∧
    (sendLoopStep f accepted err).err = err ∧
    0 ≤ (sendLoopStep f accepted err).n := by
  refine ⟨?_, rfl, ?_⟩ <;>
    (simp only [sendLoopStep, headerSize]; split <;> omega)

/-- C10: dispatching a received PSH frame whose stream id is not in the
stream table leaves the entire session state unchanged — in particular the
bucket is not decremented and no stream buffer changes. -/
theorem psh_unknown_sid_ignored (st : SessionState) (f : Frame)
    (kxrVerify : Option (List Nat)) (hcmd : f.cmd = Cmd.PSH)
    (hunknown : lookupStream st.streams f.sid = none) :
    dispatch st f kxrVerify = st := by
  rcases f with ⟨ver, cmd, sid, data⟩
  cases hcmd
  simp only [] at hunknown
  simp [dispatch, hunknown]

/-- C10 witness: a PSH frame for unknown stream id 9 on a fresh session. -/
theorem psh_unknown_sid_ignored_witness :
    (({ ver := version, cmd := Cmd.PSH, sid := 9, data := [1, 2] } : Frame).cmd = Cmd.PSH ∧
     lookupStream (newSession { maxReceiveBuffer := 16, maxFrameSize := 4096 } false true).streams 9 = none) ∧
    dispatch (newSession { maxReceiveBuffer := 16, maxFrameSize := 4096 } false true)
        { ver := version, cmd := Cmd.PSH, sid := 9, data := [1, 2] } none =
      newSession { maxReceiveBuffer := 16, maxFrameSize := 4096 } false true :=
  ⟨⟨rfl, rfl⟩, psh_unknown_sid_ignored _ _ none rfl rfl⟩

/-- C6 (amended): a client session IGNORES a received KXR frame — the
`!s.client` guard skips the entire handler, the state is unchanged and the
session is NOT closed. -/
theorem client_kxr_ignored (st : SessionState) (f : Frame)
    (kxrVerify : Option (List Nat)) (hclient : st.client = true)
    (hcmd : f.cmd = Cmd.KXR) :
    dispatch st f kxrVerify = st := by
  rcases f with ⟨ver, cmd, sid, data⟩
  cases hcmd
  simp [dispatch, hclient]

/-- C6 witness: a concrete encrypted client session receiving KXR. -/
theorem client_kxr_ignored_witness :
    ((newSession { maxReceiveBuffer := 1024, maxFrameSize := 4096 } true true).client = true ∧
     ({ ver := version, cmd := Cmd.KXR, sid := 0, data := [1, 2, 3] } : Frame).cmd = Cmd.KXR) ∧
    dispatch (newSession { maxReceiveBuffer := 1024, maxFrameSize := 4096 } true true)
        { ver := version, cmd := Cmd.KXR, sid := 0, data := [1, 2, 3] }
        (some (List.replicate 32 7)) =
      newSession { maxReceiveBuffer := 1024, maxFrameSize := 4096 } true true :=
  ⟨⟨rfl, rfl⟩, client_kxr_ignored _ _ (some (List.replicate 32 7)) rfl rfl⟩

/-- C6 counterexample: the claim as stated is false — a client receiving a
KXR frame does not close the session: the die flag stays down. -/
theorem client_kxr_does_not_close :
    (dispatch (newSession { maxReceiveBuffer := 1024, maxFrameSize := 4096 } true true)
        { ver := version, cmd := Cmd.KXR, sid := 0, data := [1, 2, 3] }
        (some (List.replicate 32 7))).dieClosed = false :=
  rfl

/-- C2: delivering a duplicate KXS frame executes `close(chEncryptionReady)`
a second time — the close count reaches 2, which in Go is a run-time panic
(close of closed channel); the ready signal is therefore NOT fired at most
once over the session lifetime. -/
theorem kxs_duplicate_double_close :
    (dispatch (newSession { maxReceiveBuffer := 1024, maxFrameSize := 4096 } true false)
        { ver := version, cmd := Cmd.KXS, sid := 0, data := [1] } none).readyCloses = 1 ∧
    (dispatch (dispatch (newSession { maxReceiveBuffer := 1024, maxFrameSize := 4096 } true false)
          { ver := version, cmd := Cmd.KXS, sid := 0, data := [1] } none)
        { ver := version, cmd := Cmd.KXS, sid := 0, data := [1] } none).readyCloses = 2 :=
  ⟨rfl, rfl⟩

/-- C9: on an encrypted session, `writeFrame` encrypts a PSH payload IN
PLACE (`encrypt(s, req.frame.data, req.frame.data)`) before the request is
enqueued: after the call the caller's buffer holds the ciphertext — the
same bytes the sender task sees — not the plaintext passed in. -/
theorem writeFrame_psh_in_place (ks : Keystream) (st : SessionState)
    (f : Frame) (c : CipherState) (henc : st.encrypted = true)
    (hcmd : f.cmd = Cmd.PSH) (hcs : st.cryptStream = some c)
    (halive : st.dieClosed = false) :
    writeFrame ks st f =
      Except.ok ({ st with cryptStream := some ((xorBytes ks c f.data).2) },
        (xorBytes ks c f.data).1, (xorBytes ks c f.data).1) := by
  unfold writeFrame encrypt
  rw [if_pos ⟨henc, hcmd⟩, hcs]
  simp [halive]

/-- C9 witness: concrete keystream and payload; the caller's buffer after
the call holds the ciphertext [11, 22], different from the plaintext
[10, 20]. -/
theorem writeFrame_psh_in_place_witness :
    ((setEncryptionStream (newSession { maxReceiveBuffer := 1024, maxFrameSize := 4096 } true true)
        (List.replicate 32 0)).encrypted = true ∧
     ({ ver := version, cmd := Cmd.PSH, sid := 3, data := [10, 20] } : Frame).cmd = Cmd.PSH ∧
     (setEncryptionStream (newSession { maxReceiveBuffer := 1024, maxFrameSize := 4096 } true true)
        (List.replicate 32 0)).cryptStream = some { key := List.replicate 32 0, pos := 0 } ∧
     (setEncryptionStream (newSession { maxReceiveBuffer := 1024, maxFrameSize := 4096 } true true)
        (List.replicate 32 0)).dieClosed = false) ∧
    writeFrame (fun _ i => i + 1)
        (setEncryptionStream (newSession { maxReceiveBuffer := 1024, maxFrameSize := 4096 } true true)
          (List.replicate 32 0))
        { ver := version, cmd := Cmd.PSH, sid := 3, data := [10, 20] } =
      Except.ok
        ({ setEncryptionStream (newSession { maxReceiveBuffer := 1024, maxFrameSize := 4096 } true true)
             (List.replicate 32 0) with
           cryptStream := some { key := List.replicate 32 0, pos := 2 } },
         [11, 22], [11, 22]) ∧
    ([11, 22] : List Nat) ≠ [10, 20] :=
  ⟨⟨rfl, rfl, rfl, rfl⟩,
   writeFrame_psh_in_place (fun _ i => i + 1) _ _
     { key := List.replicate 32 0, pos := 0 } rfl rfl rfl rfl,
   by decide⟩

/-- C1: the source keeps ONE cipher instance (`cryptStream`) shared between
the send and receive paths — not two independent per-direction instances.
Demonstration: after installing the key, one outbound PSH advances the
shared keystream to position 1; decrypting a ciphertext the peer produced
at keystream position 0 then XORs at position 1 and yields [1] instead of
the plaintext [0]. -/
theorem single_shared_cipher_breaks_decrypt :
    (setEncryptionStream
        (newSession { maxReceiveBuffer := 1024, maxFrameSize := 4096 } true true)
        (List.replicate 32 0)).cryptStream =
      some { key := List.replicate 32 0, pos := 0 } ∧
    encrypt (fun _ i => i % 256)
        (setEncryptionStream
          (newSession { maxReceiveBuffer := 1024, maxFrameSize := 4096 } true false)
          (List.replicate 32 0)) [0] =
      Except.ok ([0],
        { setEncryptionStream
            (newSession { maxReceiveBuffer := 1024, maxFrameSize := 4096 } true false)
            (List.replicate 32 0) with
          cryptStream := some { key := List.replicate 32 0, pos := 1 } }) ∧
    writeFrame (fun _ i => i % 256)
        (setEncryptionStream
          (newSession { maxReceiveBuffer := 1024, maxFrameSize := 4096 } true true)
          (List.replicate 32 0))
        { ver := version, cmd := Cmd.PSH, sid := 3, data := [7] } =
      Except.ok
        ({ setEncryptionStream
             (newSession { maxReceiveBuffer := 1024, maxFrameSize := 4096 } true true)
             (List.replicate 32 0) with
           cryptStream := some { key := List.replicate 32 0, pos := 1 } },
         [7], [7]) ∧
    decrypt (fun _ i => i % 256)
        { setEncryptionStream
            (newSession { maxReceiveBuffer := 1024, maxFrameSize := 4096 } true true)
            (List.replicate 32 0) with
          cryptStream := some { key := List.replicate 32 0, pos := 1 } } [0] =
      Except.ok ([1],
        { setEncryptionStream
            (newSession { maxReceiveBuffer := 1024, maxFrameSize := 4096 } true true)
            (List.replicate 32 0) with
          cryptStream := some { key := List.replicate 32 0, pos := 2 } }) ∧
    ([1] : List Nat) ≠ [0] :=
  ⟨rfl, rfl, rfl, rfl, by decide⟩

/-- C3: from any reachable state of the receive pump, a transport read of a
new frame fires only when the bucket is strictly positive (it is refused
while bucket ≤ 0), and after dispatching a frame `f` the sum over all
streams of buffered unread PSH bytes is at most `MaxReceiveBuffer` plus the
payload length of `f`. -/
theorem recv_pump_flow_bound (cfg : Config) (e c : Bool) (evs : List PumpEV)
    (st : SessionState) (f : Frame) (kxrVerify : Option (List Nat))
    (h : pumpRun (newSession cfg e c) evs = some st) :
    (st.bucket ≤ 0 → pumpStep st (PumpEV.rcv f kxrVerify) = none) ∧
    (∀ st2, pumpStep st (PumpEV.rcv f kxrVerify) = some st2 →
      (bufferedSum st2.streams : Int) ≤
        (cfg.maxReceiveBuffer : Int) + (f.data.length : Int)) := by
  have hinv := flowInv_pumpRun cfg (newSession cfg e c) st evs h
    (flowInv_newSession cfg e c)
  constructor
  · intro hb
    unfold pumpStep
    by_cases hd : st.dieClosed
    · simp [hd]
    · simp [hd, hb]
  · intro st2 hstep
    unfold pumpStep at hstep
    by_cases hd : st.dieClosed
    · simp [hd] at hstep
    · by_cases hb : st.bucket ≤ 0
      · simp [hd, hb] at hstep
      · simp [hd, hb] at hstep
        have hinv2 : flowInv cfg st2 :=
          hstep ▸ flowInv_dispatch cfg st f kxrVerify hinv
        have hbg : st.bucket - (f.data.length : Int) ≤ st2.bucket :=
          hstep ▸ dispatch_bucket_ge st f kxrVerify
        unfold flowInv at hinv2
        omega

/-- C3 witness: a concrete run (SYN for stream 5, then a 3-byte PSH) from a
session with an 8-byte receive buffer, checked against a further 2-byte
PSH frame. -/
theorem recv_pump_flow_bound_witness :
    pumpRun (newSession flowDemoCfg false true) flowDemoEvs = some flowDemoState ∧
    ((flowDemoState.bucket ≤ 0 →
        pumpStep flowDemoState (PumpEV.rcv flowDemoFrame none) = none) ∧
     (∀ st2, pumpStep flowDemoState (PumpEV.rcv flowDemoFrame none) = some st2 →
        (bufferedSum st2.streams : Int) ≤
          (flowDemoCfg.maxReceiveBuffer : Int) + (flowDemoFrame.data.length : Int))) :=
  ⟨by decide,
   recv_pump_flow_bound flowDemoCfg false true flowDemoEvs flowDemoState
     flowDemoFrame none (by decide)⟩

/-- C7: a frame whose version byte differs from the protocol constant is
rejected by `readFrame` with `errInvalidProtocol`; the receive loop then
closes the session, and a pending `OpenStream` on the dead session observes
BrokenPipe. -/
theorem version_mismatch_closes (ks : Keystream) (st : SessionState)
    (b0 b1 b2 b3 b4 b5 b6 b7 : Nat) (rest : List Nat)
    (kxrVerify : Option (List Nat)) (hv : b0 ≠ version)
    (halive : st.dieClosed = false) (hbucket : 0 < st.bucket) :
    readFrame ks st (b0 :: b1 :: b2 :: b3 :: b4 :: b5 :: b6 :: b7 :: rest) =
      Except.error errInvalidProtocol ∧
    (recvOnce ks st (b0 :: b1 :: b2 :: b3 :: b4 :: b5 :: b6 :: b7 :: rest)
        kxrVerify).dieClosed = true ∧
    openStream (recvOnce ks st (b0 :: b1 :: b2 :: b3 :: b4 :: b5 :: b6 :: b7 :: rest)
        kxrVerify) true = Except.error errBrokenPipe := by
  have h1 : readFrame ks st (b0 :: b1 :: b2 :: b3 :: b4 :: b5 :: b6 :: b7 :: rest) =
      Except.error errInvalidProtocol := by
    show (if b0 ≠ version then Except.error errInvalidProtocol else _) =
      Except.error errInvalidProtocol
    rw [if_pos hv]
  have h2 : recvOnce ks st (b0 :: b1 :: b2 :: b3 :: b4 :: b5 :: b6 :: b7 :: rest)
      kxrVerify = (sessionClose st none).1 := by
    unfold recvOnce
    rw [if_neg (by simp [halive]), if_neg (by omega), h1]
  refine ⟨h1, ?_, ?_⟩
  · rw [h2]
    exact sessionClose_fst_dieClosed st none
  · rw [h2]
    unfold openStream isClosed
    rw [if_pos (sessionClose_fst_dieClosed st none)]

/-- C7 witness: a concrete frame with version byte 9 on a fresh session. -/
theorem version_mismatch_closes_witness :
    ((9 : Nat) ≠ version ∧
     (newSession { maxReceiveBuffer := 1024, maxFrameSize := 4096 } false true).dieClosed = false ∧
     (0 : Int) < (newSession { maxReceiveBuffer := 1024, maxFrameSize := 4096 } false true).bucket) ∧
    (readFrame (fun _ _ => 0) (newSession { maxReceiveBuffer := 1024, maxFrameSize := 4096 } false true)
        (9 :: 0 :: 0 :: 0 :: 0 :: 0 :: 0 :: 0 :: []) = Except.error errInvalidProtocol ∧
     (recvOnce (fun _ _ => 0) (newSession { maxReceiveBuffer := 1024, maxFrameSize := 4096 } false true)
        (9 :: 0 :: 0 :: 0 :: 0 :: 0 :: 0 :: 0 :: []) none).dieClosed = true ∧
     openStream (recvOnce (fun _ _ => 0) (newSession { maxReceiveBuffer := 1024, maxFrameSize := 4096 } false true)
        (9 :: 0 :: 0 :: 0 :: 0 :: 0 :: 0 :: 0 :: []) none) true = Except.error errBrokenPipe) :=
  ⟨⟨by decide, rfl, by decide⟩,
   version_mismatch_closes (fun _ _ => 0) _ 9 0 0 0 0 0 0 0 [] none
     (by decide) rfl (by decide)⟩

end Smux
